import Mathlib

/-!
Verification of the safe view layer of `assimp-rs` against its
natural-language specification.

The Rust source is shallowly embedded: raw foreign pointers become
`Option` (with `none` for a null pointer), foreign arrays become the
`List` of elements that are actually readable at the pointer, fallible
code returns `Option`/`Except`, and a Rust panic (`todo!`,
`unreachable!`) becomes `Except.error`.  `f32`/`f64` payloads are
modelled as `Rat`: the view layer only moves float values around and
compares the literal `1.0`, it performs no float arithmetic.
-/

namespace AssimpRs

/-! ## Bounded iterators (`src/internal_macros.rs`)

`define_iter!` produces a struct `{ ptr: Option<NonNull<T>>, len: usize }`.
We model the pointer as `Option (List α)`: `none` is a null pointer and
`some l` is a non-null pointer such that `l` lists the values readable at
successive offsets from it (so `some []` models a valid one-past-the-end
pointer with nothing readable behind it).  -/

/-- Direct bounded iterator state (`define_iter!` + `impl_iterator!`):
the foreign array stores records by value. -/
structure DirectIter (α : Type) where
  ptr : Option (List α)
  len : Nat
deriving Repr, DecidableEq

/-- `$name::new(ptr, len)` from `define_iter!`. -/
def DirectIter.new (ptr : Option (List α)) (len : Nat) : DirectIter α :=
  { ptr := ptr, len := len }

/-- `Iterator::next` from `impl_iterator!` (internal_macros.rs:28-43).
Returns the yielded item and the successor state.  The `some []` arm
models an out-of-bounds read of a one-past-the-end pointer, which is
unreachable whenever `len` is at most the number of readable elements;
`self.ptr?` returning early leaves the state unchanged. -/
def DirectIter.next (s : DirectIter α) : Option α × DirectIter α :=
  if s.len > 0 then
    match s.ptr with
    | none => (none, s)
    | some [] => (none, s)
    | some (x :: rest) => (some x, { ptr := some rest, len := s.len - 1 })
  else
    (none, s)

/-- `ExactSizeIterator::len` from `impl_iterator!` (internal_macros.rs:47-49). -/
def DirectIter.lenField (s : DirectIter α) : Nat :=
  s.len

/-- Run `next` a given number of times, collecting the yielded results. -/
def DirectIter.run (s : DirectIter α) : Nat → List (Option α) × DirectIter α
  | 0 => ([], s)
  | k + 1 =>
    let (r, s') := s.next
    let (rs, s'') := s'.run k
    (r :: rs, s'')

/-- Indirect bounded iterator state (`impl_iterator_indirect!`): the
foreign array stores nullable pointers to records, each slot modelled as
`Option α`. -/
structure IndirectIter (α : Type) where
  ptr : Option (List (Option α))
  len : Nat
deriving Repr, DecidableEq

/-- `Iterator::next` from `impl_iterator_indirect!` (internal_macros.rs:59-75).
A `none` slot models a null record pointer: `NonNull::new(*ptr)?` returns
early, so nothing is yielded and the state is left unchanged.  The
`some []` arm models an out-of-bounds read, unreachable when `len` is at
most the number of readable slots. -/
def IndirectIter.next (s : IndirectIter α) : Option α × IndirectIter α :=
  if s.len > 0 then
    match s.ptr with
    | none => (none, s)
    | some [] => (none, s)
    | some (none :: _) => (none, s)
    | some (some x :: rest) => (some x, { ptr := some rest, len := s.len - 1 })
  else
    (none, s)

/-- Run the indirect `next` a given number of times. -/
def IndirectIter.run (s : IndirectIter α) : Nat → List (Option α) × IndirectIter α
  | 0 => ([], s)
  | k + 1 =>
    let (r, s') := s.next
    let (rs, s'') := s'.run k
    (r :: rs, s'')

/-- Number of items actually yielded in a list of `next` results. -/
def yielded (rs : List (Option α)) : Nat :=
  (rs.filter Option.isSome).length

/-! ### Iterator lemmas -/

theorem DirectIter.run_succ (s : DirectIter α) (k : Nat) :
    s.run (k + 1) = ((s.next.fst :: (s.next.snd.run k).fst), (s.next.snd.run k).snd) := by
  simp [DirectIter.run]

theorem DirectIter.run_full (l : List α) :
    (DirectIter.run { ptr := some l, len := l.length } (l.length + 1)).fst
      = l.map some ++ [none] := by
  induction l with
  | nil => simp [DirectIter.run, DirectIter.next]
  | cons x rest ih =>
    have hnext :
        (DirectIter.next { ptr := some (x :: rest), len := (x :: rest).length })
          = (some x, { ptr := some rest, len := rest.length }) := by
      simp [DirectIter.next]
    rw [show (x :: rest).length + 1 = (rest.length + 1) + 1 from by simp]
    rw [DirectIter.run_succ, hnext]
    simp only [List.map, List.cons_append]
    rw [ih]

theorem DirectIter.run_null (N k : Nat) :
    (DirectIter.run ({ ptr := none, len := N } : DirectIter α) k).fst
      = List.replicate k none := by
  induction k with
  | zero => simp [DirectIter.run]
  | succ k ih =>
    have hnext :
        (DirectIter.next ({ ptr := none, len := N } : DirectIter α))
          = (none, { ptr := none, len := N }) := by
      by_cases h : N > 0 <;> simp [DirectIter.next, h]
    simp [DirectIter.run, hnext, ih, List.replicate]

theorem IndirectIter.run_unfold (s : IndirectIter α) (k : Nat) :
    s.run (k + 1) = ((s.next.fst :: (s.next.snd.run k).fst), (s.next.snd.run k).snd) := by
  simp [IndirectIter.run]

theorem DirectIter.next_spec (s : DirectIter α) :
    s.next = (none, s)
      ∨ (s.next.fst.isSome ∧ s.next.snd.len = s.len - 1 ∧ 0 < s.len) := by
  rcases s with ⟨p, len⟩
  match len, p with
  | 0, p => left; simp [DirectIter.next]
  | (n + 1), none => left; simp [DirectIter.next]
  | (n + 1), some [] => left; simp [DirectIter.next]
  | (n + 1), some (x :: rest) => right; simp [DirectIter.next]

theorem yielded_cons_none (rs : List (Option α)) :
    yielded (none :: rs) = yielded rs := by
  simp [yielded]

theorem yielded_cons_some (x : α) (rs : List (Option α)) :
    yielded (some x :: rs) = yielded rs + 1 := by
  simp [yielded, List.filter]

theorem yielded_replicate_none (k : Nat) :
    yielded (List.replicate k (none : Option α)) = 0 := by
  induction k with
  | zero => simp [yielded]
  | succ k ih => simp [List.replicate, yielded_cons_none, ih]

/-- The `len` field after any number of `next` calls is the construction
count minus the number of items yielded. -/
theorem DirectIter.len_run (s : DirectIter α) (k : Nat) :
    (s.run k).snd.len = s.len - yielded (s.run k).fst := by
  induction k generalizing s with
  | zero => simp [DirectIter.run, yielded]
  | succ k ih =>
    rw [DirectIter.run_succ]
    rcases DirectIter.next_spec s with h | ⟨h1, h2, h3⟩
    · rw [h]
      simp only [yielded_cons_none]
      exact ih s
    · rcases ho : s.next.fst with _ | x
      · simp_all
      · simp only [yielded_cons_some]
        have := ih s.next.snd
        omega

/-- C1: a direct bounded iterator constructed from `(ptr, N)` yields, when
the pointer is non-null over an array of `N` valid elements, exactly the
`N` array elements on the first `N` `next()` calls and nothing on the
`(N+1)`-th call; when the pointer is null it yields nothing on any call
regardless of `N`. -/
theorem direct_iter_yields_exactly_count_and_null_is_empty :
    ∀ (α : Type) (l : List α) (N k : Nat), N = l.length →
      ((DirectIter.new (some l) N).run (N + 1)).fst = l.map some ++ [none]
        ∧ ((DirectIter.new (none : Option (List α)) N).run k).fst
            = List.replicate k none := by
  intro α l N k h
  subst h
  exact ⟨DirectIter.run_full l, DirectIter.run_null _ _⟩

theorem direct_iter_yields_exactly_count_and_null_is_empty_witness :
    ((DirectIter.new (some [10, 20]) 2).run (2 + 1)).fst = [10, 20].map some ++ [none]
      ∧ ((DirectIter.new (none : Option (List Nat)) 2).run 5).fst
          = List.replicate 5 none :=
  direct_iter_yields_exactly_count_and_null_is_empty Nat [10, 20] 2 5 rfl

/-- C5: an indirect bounded iterator that reaches a null element slot
(with remaining count `N > 0`) yields nothing at that step and at every
later step, fabricating no item for the null slot. -/
theorem indirect_iter_null_slot_terminates_sequence :
    ∀ (α : Type) (rest : List (Option α)) (N k : Nat), 0 < N →
      ((IndirectIter.run { ptr := some (none :: rest), len := N } k).fst
          = List.replicate k none) := by
  intro α rest N k hN
  have hfix :
      (IndirectIter.next { ptr := some (none :: rest), len := N })
        = (none, { ptr := some (none :: rest), len := N }) := by
    simp [IndirectIter.next, hN]
  induction k with
  | zero => simp [IndirectIter.run]
  | succ k ih =>
    rw [IndirectIter.run_unfold, hfix]
    simp only [List.replicate]
    rw [ih]

theorem indirect_iter_null_slot_terminates_sequence_witness :
    ((IndirectIter.run { ptr := some (none :: [some 3]), len := 2 } 4).fst
        = List.replicate 4 (none : Option Nat)) :=
  indirect_iter_null_slot_terminates_sequence Nat [some 3] 2 4 (by decide)

/-- C10: `ExactSizeIterator::len` reports the construction count minus the
number of items yielded so far; in particular an iterator constructed from
a null pointer and count `N` still reports `len() = N` after any number of
`next()` calls even though it yields zero items. -/
theorem exact_size_len_tracks_count_not_remaining_items :
    ∀ (α : Type) (s : DirectIter α) (N k : Nat),
      ((s.run k).snd.lenField = s.len - yielded (s.run k).fst)
        ∧ ((DirectIter.new (none : Option (List α)) N).run k).snd.lenField = N
        ∧ yielded ((DirectIter.new (none : Option (List α)) N).run k).fst = 0 := by
  intro α s N k
  refine ⟨DirectIter.len_run s k, ?_, ?_⟩
  · have h1 := DirectIter.len_run (DirectIter.new (none : Option (List α)) N) k
    have h2 := DirectIter.run_null (α := α) N k
    simp only [DirectIter.new] at h1 h2 ⊢
    rw [DirectIter.lenField, h1, h2, yielded_replicate_none]
    omega
  · have h2 := DirectIter.run_null (α := α) N k
    simp only [DirectIter.new]
    rw [h2, yielded_replicate_none]

/-! ## Primitive view types

The repository's `math` module (`Vector3D`, `Color3D`, ...) is not under
`src/`, only its users are. -/

/-- Modelled from the spec: `Vector3D` (math module, absent from `src/`)
is a plain 3-vector record; components are `f32`, modelled as `Rat`. -/
structure Vector3D where
  x : Rat
  y : Rat
  z : Rat
deriving Repr, DecidableEq

/-- `aiVertexWeight`: a (vertex-index, weight) pair (scene/mesh.rs `VertexWeight`). -/
structure VertexWeight where
  mVertexId : Nat
  mWeight : Rat
deriving Repr, DecidableEq

/-- `aiFace` as seen through `Face` (scene/face.rs): an index count and a
(possibly null) pointer to the index array. -/
structure Face where
  mNumIndices : Nat
  mIndices : Option (List Nat)
deriving Repr, DecidableEq

/-- `Face::indices` (face.rs:33-39): an empty slice for a null pointer,
otherwise `slice::from_raw_parts(mIndices, mNumIndices)` — it reads
exactly `mNumIndices` elements (the `take` is exact whenever the backing
array holds at least `mNumIndices` readable elements; fewer would be an
out-of-bounds read in the source). -/
def Face.indices (f : Face) : List Nat :=
  match f.mIndices with
  | none => []
  | some l => l.take f.mNumIndices

/-- `PrimitiveType` (import/structs.rs:42-47). -/
inductive PrimitiveType where
  | Point
  | Line
  | Triangle
  | Polygon
deriving Repr, DecidableEq

/-- `Face::primitive_type` (face.rs:22-30); the length-0 arm is
`unreachable!()`, a panic, modelled as `none`. -/
def Face.primitive_type (f : Face) : Option PrimitiveType :=
  match f.indices.length with
  | 0 => none
  | 1 => some PrimitiveType.Point
  | 2 => some PrimitiveType.Line
  | 3 => some PrimitiveType.Triangle
  | _ => some PrimitiveType.Polygon

/-- `aiBone` as used by `Bone` (scene/mesh.rs:239-277): a weight count and
a (possibly null) pointer to the weight array. -/
structure Bone where
  mNumWeights : Nat
  mWeights : Option (List VertexWeight)

/-- `aiMesh` as used by `Mesh` (scene/mesh.rs): counts plus (possibly
null) arrays.  `mBones` is an array of nullable pointers to bones. -/
structure Mesh where
  mNumVertices : Nat
  mVertices : Option (List Vector3D)
  mNumFaces : Nat
  mFaces : Option (List Face)
  mNumBones : Nat
  mBones : Option (List (Option Bone))

/-- `Mesh::vertex_data` (mesh.rs:216-227): bounds check `id < mNumVertices`
first, then `NonNull::new(array)?` (null check), then a read at offset
`id` (`l[id]?`; an out-of-range read models the source's out-of-bounds
dereference, unreachable when the array holds `mNumVertices` valid
elements). -/
def Mesh.vertex_data (m : Mesh) (array : Option (List Vector3D)) (id : Nat) :
    Option Vector3D :=
  if id < m.mNumVertices then array.bind (fun l => l[id]?) else none

/-- `Mesh::position` (mesh.rs:108-110). -/
def Mesh.position (m : Mesh) (id : Nat) : Option Vector3D :=
  m.vertex_data m.mVertices id

/-- `Mesh::face` (mesh.rs:181-191): bounds check `id < mNumFaces`, null
check on `mFaces`, then the element address at offset `id`. -/
def Mesh.face (m : Mesh) (id : Nat) : Option Face :=
  if id < m.mNumFaces then m.mFaces.bind (fun l => l[id]?) else none

/-- `Mesh::bone` (mesh.rs:204-214): bounds check `id < mNumBones`, null
check on `mBones`, then a dereference of the nullable slot pointer
(`NonNull::new(*...)?`). -/
def Mesh.bone (m : Mesh) (id : Nat) : Option Bone :=
  if id < m.mNumBones then (m.mBones.bind (fun l => l[id]?)).join else none

/-- `Bone::weight` (mesh.rs:266-276): bounds check `id < mNumWeights`,
null check on `mWeights`, then the element address at offset `id`. -/
def Bone.weight (b : Bone) (id : Nat) : Option VertexWeight :=
  if id < b.mNumWeights then b.mWeights.bind (fun l => l[id]?) else none

/-- `aiVectorKey` (scene/animation.rs `VectorKey`). -/
structure VectorKey where
  mTime : Rat
  mValue : Vector3D
deriving Repr, DecidableEq

/-- `aiNodeAnim` as used by `NodeAnim` (scene/animation.rs). -/
structure NodeAnim where
  mNumPositionKeys : Nat
  mPositionKeys : Option (List VectorKey)

/-- `aiAnimation` as used by `Animation` (scene/animation.rs): `mChannels`
is an array of nullable pointers to node animations. -/
structure Animation where
  mNumChannels : Nat
  mChannels : Option (List (Option NodeAnim))

/-- `Animation::get_node_anim` (animation.rs:28-38). -/
def Animation.get_node_anim (a : Animation) (id : Nat) : Option NodeAnim :=
  if id < a.mNumChannels then (a.mChannels.bind (fun l => l[id]?)).join else none

/-- `NodeAnim::get_position_key` (animation.rs:89-101). -/
def NodeAnim.get_position_key (n : NodeAnim) (id : Nat) : Option VectorKey :=
  if id < n.mNumPositionKeys then n.mPositionKeys.bind (fun l => l[id]?) else none

/-! ### Indexed-lookup lemmas -/

theorem getElem?_isSome_iff (l : List α) (i : Nat) :
    l[i]?.isSome ↔ i < l.length := by
  constructor
  · intro h
    by_contra hc
    push_neg at hc
    rw [List.getElem?_eq_none_iff.mpr hc] at h
    simp at h
  · intro h
    simp [List.getElem?_eq_getElem h]

theorem direct_pattern_isSome (l : List α) (i count : Nat) (h : l.length = count) :
    (if i < count then (some l).bind (fun l => l[i]?) else none).isSome
      ↔ i < count := by
  split
  case isTrue hlt =>
    simp only [Option.some_bind]
    rw [getElem?_isSome_iff, h]
  case isFalse hlt =>
    simpa using hlt

theorem indirect_pattern_isSome (l : List (Option α)) (i count : Nat)
    (h : l.length = count) (hs : ∀ o ∈ l, o.isSome) :
    (if i < count then ((some l).bind (fun l => l[i]?)).join else none).isSome
      ↔ i < count := by
  split
  case isTrue hlt =>
    simp only [Option.some_bind]
    have hlt' : i < l.length := h ▸ hlt
    rcases hg : l[i]? with _ | o
    · simp [List.getElem?_eq_none_iff] at hg
      omega
    · have hmem : o ∈ l := List.getElem?_mem hg
      have hso := hs o hmem
      simp [Option.join, hso, hlt]
  case isFalse hlt =>
    simpa using hlt

/-- C2: every indexed lookup `get(i)` on a collection of logical length
`L` backed by a non-null array of `L` valid elements (`Mesh::face`,
`Mesh::position`, `Mesh::bone`, `Bone::weight`,
`Animation::get_node_anim`, `NodeAnim::get_position_key`) is present
exactly for `i < L` and absent for `i ≥ L`. -/
theorem indexed_get_present_iff_in_bounds :
    ∀ (m : Mesh) (b : Bone) (a : Animation) (na : NodeAnim)
      (lv : List Vector3D) (lf : List Face) (lb : List (Option Bone))
      (lw : List VertexWeight) (lc : List (Option NodeAnim))
      (lk : List VectorKey) (i : Nat),
      m.mVertices = some lv → lv.length = m.mNumVertices →
      m.mFaces = some lf → lf.length = m.mNumFaces →
      m.mBones = some lb → lb.length = m.mNumBones → (∀ o ∈ lb, o.isSome) →
      b.mWeights = some lw → lw.length = b.mNumWeights →
      a.mChannels = some lc → lc.length = a.mNumChannels → (∀ o ∈ lc, o.isSome) →
      na.mPositionKeys = some lk → lk.length = na.mNumPositionKeys →
      (((m.position i).isSome ↔ i < m.mNumVertices)
        ∧ ((m.face i).isSome ↔ i < m.mNumFaces)
        ∧ ((m.bone i).isSome ↔ i < m.mNumBones)
        ∧ ((b.weight i).isSome ↔ i < b.mNumWeights)
        ∧ ((a.get_node_anim i).isSome ↔ i < a.mNumChannels)
        ∧ ((na.get_position_key i).isSome ↔ i < na.mNumPositionKeys)) := by
  intro m b a na lv lf lb lw lc lk i
  intro hv hvl hf hfl hb hbl hbs hw hwl hc hcl hcs hk hkl
  refine ⟨?_, ?_, ?_, ?_, ?_, ?_⟩
  · rw [Mesh.position, Mesh.vertex_data, hv]
    exact direct_pattern_isSome lv i m.mNumVertices hvl
  · rw [Mesh.face, hf]
    exact direct_pattern_isSome lf i m.mNumFaces hfl
  · rw [Mesh.bone, hb]
    exact indirect_pattern_isSome lb i m.mNumBones hbl hbs
  · rw [Bone.weight, hw]
    exact direct_pattern_isSome lw i b.mNumWeights hwl
  · rw [Animation.get_node_anim, hc]
    exact indirect_pattern_isSome lc i a.mNumChannels hcl hcs
  · rw [NodeAnim.get_position_key, hk]
    exact direct_pattern_isSome lk i na.mNumPositionKeys hkl

theorem indexed_get_present_iff_in_bounds_witness :
    let v : Vector3D := ⟨0, 0, 0⟩
    let fc : Face := ⟨3, some [0, 1, 2]⟩
    let w : VertexWeight := ⟨0, 1⟩
    let bo : Bone := ⟨1, some [w]⟩
    let vk : VectorKey := ⟨0, v⟩
    let na : NodeAnim := ⟨1, some [vk]⟩
    let m : Mesh := ⟨1, some [v], 1, some [fc], 1, some [some bo]⟩
    let an : Animation := ⟨1, some [some na]⟩
    (((m.position 0).isSome ↔ 0 < m.mNumVertices)
      ∧ ((m.face 0).isSome ↔ 0 < m.mNumFaces)
      ∧ ((m.bone 0).isSome ↔ 0 < m.mNumBones)
      ∧ ((bo.weight 0).isSome ↔ 0 < bo.mNumWeights)
      ∧ ((an.get_node_anim 0).isSome ↔ 0 < an.mNumChannels)
      ∧ ((na.get_position_key 0).isSome ↔ 0 < na.mNumPositionKeys)) :=
  indexed_get_present_iff_in_bounds
    ⟨1, some [⟨0, 0, 0⟩], 1, some [⟨3, some [0, 1, 2]⟩], 1, some [some ⟨1, some [⟨0, 1⟩]⟩]⟩
    ⟨1, some [⟨0, 1⟩]⟩
    ⟨1, some [some ⟨1, some [⟨0, ⟨0, 0, 0⟩⟩]⟩]⟩
    ⟨1, some [⟨0, ⟨0, 0, 0⟩⟩]⟩
    [⟨0, 0, 0⟩] [⟨3, some [0, 1, 2]⟩] [some ⟨1, some [⟨0, 1⟩]⟩]
    [⟨0, 1⟩] [some ⟨1, some [⟨0, ⟨0, 0, 0⟩⟩]⟩] [⟨0, ⟨0, 0, 0⟩⟩] 0
    rfl rfl rfl rfl rfl rfl (by simp) rfl rfl rfl rfl (by simp) rfl rfl

/-- C4: a face with at least one index classifies as point, line or
triangle for exactly 1, 2 or 3 indices respectively, and as polygon for
any greater number of indices (0 indices would be the `unreachable!()`
arm, excluded by the precondition). -/
theorem face_primitive_type_classification :
    ∀ (f : Face), 1 ≤ f.indices.length →
      f.primitive_type
        = some (if f.indices.length = 1 then PrimitiveType.Point
                else if f.indices.length = 2 then PrimitiveType.Line
                else if f.indices.length = 3 then PrimitiveType.Triangle
                else PrimitiveType.Polygon) := by
  intro f h
  unfold Face.primitive_type
  rcases hn : f.indices.length with _ | _ | _ | _ | m
  · omega
  · simp
  · simp
  · simp
  · rw [if_neg (by omega), if_neg (by omega), if_neg (by omega)]
    rfl

theorem face_primitive_type_classification_witness :
    (Face.primitive_type ⟨7, some [0, 1, 2, 3, 4, 5, 6]⟩
        = some (if (Face.indices ⟨7, some [0, 1, 2, 3, 4, 5, 6]⟩).length = 1
                  then PrimitiveType.Point
                else if (Face.indices ⟨7, some [0, 1, 2, 3, 4, 5, 6]⟩).length = 2
                  then PrimitiveType.Line
                else if (Face.indices ⟨7, some [0, 1, 2, 3, 4, 5, 6]⟩).length = 3
                  then PrimitiveType.Triangle
                else PrimitiveType.Polygon)) :=
  face_primitive_type_classification ⟨7, some [0, 1, 2, 3, 4, 5, 6]⟩ (by decide)

/-! ## Property decoder (`src/scene/material.rs`)

The foreign getters `aiGetMaterialColor` / `aiGetMaterialString` /
`aiGetMaterialFloatArray` / `aiGetMaterialIntegerArray` /
`aiGetMaterialTextureCount` / `aiGetMaterialTexture` live in the
external import engine.  Enumeration constants are the `ffi` values imported at
material.rs:3-29 (from assimp's `material.h`). -/

/-- Modelled from the spec: `Color3D` (math module, absent from `src/`),
a plain RGB record with a zero (black) `Default`. -/
structure Color3D where
  r : Rat
  g : Rat
  b : Rat
deriving Repr, DecidableEq

/-- The zero/black default color (`Color3D::default()`). -/
def Color3D.default : Color3D := ⟨0, 0, 0⟩

/-- `MaterialComponentType` (material.rs:312-338) with its
`aiTextureType` discriminants. -/
inductive MaterialComponentType where
  | Diffuse
  | Specular
  | Ambient
  | Emissive
  | Opacity
  | Displacement
  | Lightmap
  | Reflection
  | Unknown
deriving Repr, DecidableEq

/-- The `aiTextureType` value of each component (`type_ as u32`). -/
def MaterialComponentType.toU32 : MaterialComponentType → Nat
  | .Diffuse => 1
  | .Specular => 2
  | .Ambient => 3
  | .Emissive => 4
  | .Opacity => 8
  | .Displacement => 9
  | .Lightmap => 10
  | .Reflection => 11
  | .Unknown => 18

/-- `ShadingModel` (material.rs:347-379). -/
inductive ShadingModel where
  | Flat
  | Gouraud
  | Phong
  | Blinn
  | Toon
  | OrenNayar
  | Minnaert
  | CookTorrance
  | NoShading
  | Fresnel
deriving Repr, DecidableEq

/-- `TryFrom<u32> for ShadingModel` (material.rs:381-399); the
`aiShadingMode` constants are 1..10. -/
def ShadingModel.tryFrom : Nat → Option ShadingModel
  | 1 => some .Flat
  | 2 => some .Gouraud
  | 3 => some .Phong
  | 4 => some .Blinn
  | 5 => some .Toon
  | 6 => some .OrenNayar
  | 7 => some .Minnaert
  | 8 => some .CookTorrance
  | 9 => some .NoShading
  | 10 => some .Fresnel
  | _ => none

/-- `BlendOp` (material.rs:539-556); `Replace` carries no `aiTextureOp`
discriminant of its own. -/
inductive BlendOp where
  | Multiply
  | Add
  | Subtract
  | Divide
  | SmoothAdd
  | SignedAdd
  | Replace
deriving Repr, DecidableEq

/-- `TryFrom<u32> for BlendOp` (material.rs:564-578); `aiTextureOp`
constants are 0..5 and `Replace` is never produced. -/
def BlendOp.tryFrom : Nat → Option BlendOp
  | 0 => some .Multiply
  | 1 => some .Add
  | 2 => some .Subtract
  | 3 => some .Divide
  | 4 => some .SmoothAdd
  | 5 => some .SignedAdd
  | _ => none

/-- `MaterialBlendOp` (material.rs:580-597); `aiBlendMode` constants. -/
inductive MaterialBlendOp where
  | Additive
  | Default
deriving Repr, DecidableEq

def MaterialBlendOp.tryFrom : Nat → Option MaterialBlendOp
  | 0 => some .Default
  | 1 => some .Additive
  | _ => none

/-- `Mapping` (material.rs:604-632); `aiTextureMapping` constants 0..4. -/
inductive Mapping where
  | UV
  | Sphere
  | Cylinder
  | Box
  | Plane
deriving Repr, DecidableEq

def Mapping.tryFrom : Nat → Option Mapping
  | 0 => some .UV
  | 1 => some .Sphere
  | 2 => some .Cylinder
  | 3 => some .Box
  | 4 => some .Plane
  | _ => none

/-- `WrappingMode` (material.rs:651-668); `aiTextureMapMode` constants:
Wrap 0, Clamp 1, Mirror 2, Decal 3. -/
inductive WrappingMode where
  | Repeat
  | Clamp
  | Decal
  | MirrorRepeat
deriving Repr, DecidableEq

def WrappingMode.tryFrom : Nat → Option WrappingMode
  | 0 => some .Repeat
  | 1 => some .Clamp
  | 2 => some .MirrorRepeat
  | 3 => some .Decal
  | _ => none

/-- Union of the `TextureFlags` bits (material.rs:684-697):
Invert 0x1, UseAlpha 0x2, IgnoreAlpha 0x4 and the hidden
`_aiTextureFlags_Force32Bit` (`INT_MAX` in assimp's material.h). -/
def textureFlagsMask : Nat := 0x1 ||| 0x2 ||| 0x4 ||| 0x7FFFFFFF

/-- `bitflags` `TextureFlags::from_bits`: defined bits only, else `None`;
the flag set itself is kept as the raw bits. -/
def TextureFlags.from_bits (bits : Nat) : Option Nat :=
  if bits &&& textureFlagsMask = bits then some bits else none

/-- `MaterialValue` (material.rs:50-65).  `TextureFlags` keeps its raw
bit set. -/
inductive MaterialValue where
  | Color3D (c : Color3D)
  | String (s : String)
  | Float (f : Rat)
  | Int (n : Nat)
  | Vector3D (v : Vector3D)
  | Bool (b : Bool)
  | ShadingModel (s : ShadingModel)
  | MaterialBlendOp (o : MaterialBlendOp)
  | BlendOp (o : BlendOp)
  | Mapping (mp : Mapping)
  | WrappingMode (w : WrappingMode)
  | TextureFlags (bits : Nat)
deriving Repr, DecidableEq

/-- `TryInto<Color3D>` derived on `MaterialValue` (`val.try_into().ok()`). -/
def MaterialValue.toColor3D : MaterialValue → Option AssimpRs.Color3D
  | .Color3D c => some c
  | _ => none

/-- `TryInto<Vector3D>` derived on `MaterialValue`. -/
def MaterialValue.toVector3D : MaterialValue → Option AssimpRs.Vector3D
  | .Vector3D v => some v
  | _ => none

/-- `TryInto<WrappingMode>` derived on `MaterialValue`. -/
def MaterialValue.toWrappingMode : MaterialValue → Option AssimpRs.WrappingMode
  | .WrappingMode w => some w
  | _ => none

/-- `ValueType` (material.rs:442-465). -/
inductive ValueType where
  | Color3D
  | String
  | Float
  | Int
  | Vector3D
  | Bool
  | ShadingModel
  | MaterialBlendOp
  | BlendOp
  | Mapping
  | WrappingMode
  | TextureFlags
deriving Repr, DecidableEq

/-- `MaterialKey` (material.rs:403-440). -/
inductive MaterialKey where
  | Name
  | Color (c : MaterialComponentType)
  | Wireframe
  | TwoSided
  | ShadingModel
  | BlendFunc
  | Opacity
  | Shininess
  | ShininessStrength
  | RefractionIndex
  | Texture (c : MaterialComponentType) (i : Nat)
  | TextureBlend (c : MaterialComponentType) (i : Nat)
  | TextureOp (c : MaterialComponentType) (i : Nat)
  | Mapping (c : MaterialComponentType) (i : Nat)
  | UVWSource (c : MaterialComponentType) (i : Nat)
  | MappingModeU (c : MaterialComponentType) (i : Nat)
  | MappingModeV (c : MaterialComponentType) (i : Nat)
  | TextureMapAxis (c : MaterialComponentType) (i : Nat)
  | Flags (c : MaterialComponentType) (i : Nat)
deriving Repr, DecidableEq

/-- `MaterialKey::triple` (material.rs:468-510): the property name,
`aiTextureType` and slot index passed to the foreign lookup; `None` for a
color key of a component with no color property name.  The
`_AI_MATKEY_*_BASE` strings come from assimp's `material.h`. -/
def MaterialKey.triple : MaterialKey → Option (String × Nat × Nat)
  | .Name => some ("?mat.name", 0, 0)
  | .Color .Diffuse => some ("$clr.diffuse", 0, 0)
  | .Color .Ambient => some ("$clr.ambient", 0, 0)
  | .Color .Specular => some ("$clr.specular", 0, 0)
  | .Color .Emissive => some ("$clr.emissive", 0, 0)
  | .Color .Opacity => some ("$clr.transparent", 0, 0)
  | .Color .Reflection => some ("$clr.reflective", 0, 0)
  | .Color _ => none
  | .Wireframe => some ("$mat.wireframe", 0, 0)
  | .TwoSided => some ("$mat.twosided", 0, 0)
  | .ShadingModel => some ("$mat.shadingm", 0, 0)
  | .BlendFunc => some ("$mat.blend", 0, 0)
  | .Opacity => some ("$mat.opacity", 0, 0)
  | .Shininess => some ("$mat.shininess", 0, 0)
  | .ShininessStrength => some ("$mat.shinpercent", 0, 0)
  | .RefractionIndex => some ("$mat.refracti", 0, 0)
  | .Texture c i => some ("$tex.file", c.toU32, i)
  | .TextureBlend c i => some ("$tex.blend", c.toU32, i)
  | .TextureOp c i => some ("$tex.op", c.toU32, i)
  | .Mapping c i => some ("$tex.mapping", c.toU32, i)
  | .UVWSource c i => some ("$tex.uvwsrc", c.toU32, i)
  | .MappingModeU c i => some ("$tex.mapmodeu", c.toU32, i)
  | .MappingModeV c i => some ("$tex.mapmodev", c.toU32, i)
  | .TextureMapAxis c i => some ("$tex.mapaxis", c.toU32, i)
  | .Flags c i => some ("$tex.flags", c.toU32, i)

/-- `MaterialKey::type_` (material.rs:512-534): the statically declared
semantic type of each key. -/
def MaterialKey.type_ : MaterialKey → ValueType
  | .Name => .String
  | .Color _ => .Color3D
  | .Wireframe => .Bool
  | .TwoSided => .Bool
  | .ShadingModel => .ShadingModel
  | .BlendFunc => .MaterialBlendOp
  | .Opacity => .Float
  | .Shininess => .Float
  | .ShininessStrength => .Float
  | .RefractionIndex => .Float
  | .Texture _ _ => .String
  | .TextureBlend _ _ => .Float
  | .TextureOp _ _ => .BlendOp
  | .Mapping _ _ => .Mapping
  | .UVWSource _ _ => .Int
  | .MappingModeU _ _ => .WrappingMode
  | .MappingModeV _ _ => .WrappingMode
  | .TextureMapAxis _ _ => .Vector3D
  | .Flags _ _ => .TextureFlags

/-- The outputs `aiGetMaterialTexture` reports for a texture slot: path,
raw mapping, raw UV channel (`i32`), blend factor, raw blend op and raw
flags (material.rs:96-115). -/
structure RawTexture where
  path : String
  mapping : Nat
  uvindex : Int
  blend : Rat
  op : Nat
  flags : Nat
deriving Repr, DecidableEq

/-- Modelled from the spec: the foreign material record behind
`&aiMaterial`.  Per §4.3 the engine's `aiGetMaterial{Color,String,
FloatArray,IntegerArray}` find the one record in the unordered property
bag whose name, `aiTextureType` and index match and yield its payload of
the queried representation, or report failure (here `none`);
`aiGetMaterialTextureCount` reports the texture count of a component and
`aiGetMaterialTexture` the raw slot data (valid for `index < count`). -/
structure Material where
  colorProps : String → Nat → Nat → Option Color3D
  stringProps : String → Nat → Nat → Option String
  floatProps : String → Nat → Nat → Option Rat
  intProps : String → Nat → Nat → Option Nat
  textureCount : MaterialComponentType → Nat
  rawTexture : MaterialComponentType → Nat → RawTexture

/-- The `todo!` panic message position for `ValueType::Vector3D`
(material.rs:253-259). -/
def vectorTodoMsg : String :=
  "todo: getting vector properties from materials currently unimplemented"

/-- The integer-payload conversions of `Material::get_value`
(material.rs:237-251); a failed enumeration conversion propagates `None`
out of `get_value` via `?`.  The wildcard arm is the source's
`unreachable!()`, never hit for the int family. -/
def decodeInt (vt : ValueType) (out : Nat) : Option MaterialValue :=
  match vt with
  | .Int => some (.Int out)
  | .Bool => some (.Bool (out != 0))
  | .ShadingModel => (ShadingModel.tryFrom out).map .ShadingModel
  | .MaterialBlendOp => (MaterialBlendOp.tryFrom out).map .MaterialBlendOp
  | .BlendOp => (BlendOp.tryFrom out).map .BlendOp
  | .Mapping => (Mapping.tryFrom out).map .Mapping
  | .WrappingMode => (WrappingMode.tryFrom out).map .WrappingMode
  | .TextureFlags => (TextureFlags.from_bits out).map .TextureFlags
  | _ => none

/-- `Material::get_value` (material.rs:167-261).  A Rust panic is
`Except.error`; the `ValueType::Vector3D` arm is the source's `todo!`. -/
def Material.get_value (m : Material) (key : MaterialKey) :
    Except String (Option MaterialValue) :=
  match key.triple with
  | none => Except.ok none
  | some (base, t, i) =>
    match key.type_ with
    | ValueType.Color3D => Except.ok ((m.colorProps base t i).map MaterialValue.Color3D)
    | ValueType.String => Except.ok ((m.stringProps base t i).map MaterialValue.String)
    | ValueType.Float => Except.ok ((m.floatProps base t i).map MaterialValue.Float)
    | ValueType.Vector3D => Except.error vectorTodoMsg
    | vt => Except.ok ((m.intProps base t i).bind (decodeInt vt))

/-- `MaterialComponent` (material.rs:304-309).  The `textures` iterator is
lazy in the source; here it is represented by its length (the foreign
texture count), with the per-slot computation as `Material.textureSlot`. -/
structure MaterialComponent where
  color : Color3D
  numTextures : Nat
deriving Repr, DecidableEq

/-- `Material::component` (material.rs:70-161), up to construction of the
lazy texture iterator: decode the component's color property, then
`color?` when the texture count is zero and `color.unwrap_or_default()`
otherwise. -/
def Material.component (m : Material) (t : MaterialComponentType) :
    Except String (Option MaterialComponent) :=
  match m.get_value (MaterialKey.Color t) with
  | Except.error e => Except.error e
  | Except.ok v =>
    let color := v.bind MaterialValue.toColor3D
    let count := m.textureCount t
    match (if count = 0 then color else some (color.getD Color3D.default)) with
    | none => Except.ok none
    | some c => Except.ok (some { color := c, numTextures := count })

/-- `TextureDefinition` (material.rs:702-734); `flags` keeps its raw bit
set. -/
structure TextureDefinition where
  path : String
  strength : Rat
  blend_op : BlendOp
  mapping : Option Mapping
  axis : Option Vector3D
  channel : Nat
  wrap_u : Option WrappingMode
  wrap_v : Option WrappingMode
  flags : Nat
deriving Repr, DecidableEq

/-- The texture-slot closure of `Material::component`
(material.rs:87-158): build one `TextureDefinition` from the foreign slot
data.  A panic inside (the `todo!` reached via
`get_value(TextureMapAxis ..)` for a recognized non-UV mapping) is
`Except.error`. -/
def Material.textureSlot (m : Material) (t : MaterialComponentType) (index : Nat) :
    Except String TextureDefinition :=
  let raw := m.rawTexture t index
  let mapping := Mapping.tryFrom raw.mapping
  let axisExc : Except String (Option Vector3D) :=
    if mapping = none ∨ mapping = some Mapping.UV then Except.ok none
    else
      match m.get_value (MaterialKey.TextureMapAxis t index) with
      | Except.error e => Except.error e
      | Except.ok v => Except.ok (v.bind MaterialValue.toVector3D)
  match axisExc with
  | Except.error e => Except.error e
  | Except.ok axis =>
    match m.get_value (MaterialKey.MappingModeU t index) with
    | Except.error e => Except.error e
    | Except.ok vu =>
      match m.get_value (MaterialKey.MappingModeV t index) with
      | Except.error e => Except.error e
      | Except.ok vv =>
        let blend_op := (BlendOp.tryFrom raw.op).getD BlendOp.Replace
        Except.ok
          { path := raw.path
            strength := if blend_op = BlendOp.Replace then 1 else raw.blend
            blend_op := blend_op
            mapping := mapping
            axis := axis
            channel := if 0 ≤ raw.uvindex then raw.uvindex.toNat else 0
            wrap_u := vu.bind MaterialValue.toWrappingMode
            wrap_v := vv.bind MaterialValue.toWrappingMode
            flags := (TextureFlags.from_bits raw.flags).getD 0 }

/-- A `MaterialValue` carries the payload representation of a given
declared `ValueType`. -/
def hasType : MaterialValue → ValueType → Bool
  | .Color3D _, ValueType.Color3D => true
  | .String _, ValueType.String => true
  | .Float _, ValueType.Float => true
  | .Int _, ValueType.Int => true
  | .Vector3D _, ValueType.Vector3D => true
  | .Bool _, ValueType.Bool => true
  | .ShadingModel _, ValueType.ShadingModel => true
  | .MaterialBlendOp _, ValueType.MaterialBlendOp => true
  | .BlendOp _, ValueType.BlendOp => true
  | .Mapping _, ValueType.Mapping => true
  | .WrappingMode _, ValueType.WrappingMode => true
  | .TextureFlags _, ValueType.TextureFlags => true
  | _, _ => false

/-- A `get_value` outcome is a non-panicking result whose value, when
present, has the declared type. -/
def okTyped (r : Except String (Option MaterialValue)) (vt : ValueType) : Bool :=
  match r with
  | Except.error _ => false
  | Except.ok none => true
  | Except.ok (some v) => hasType v vt

/-- A material whose property bag is empty and which reports no
textures. -/
def emptyMaterial : Material :=
  { colorProps := fun _ _ _ => none
    stringProps := fun _ _ _ => none
    floatProps := fun _ _ _ => none
    intProps := fun _ _ _ => none
    textureCount := fun _ => 0
    rawTexture := fun _ _ => { path := "", mapping := 0, uvindex := 0, blend := 0, op := 0, flags := 0 } }

theorem decodeInt_hasType (vt : ValueType) (out : Nat) (x : MaterialValue)
    (h : decodeInt vt out = some x) : hasType x vt = true := by
  cases vt with
  | Int => simp [decodeInt] at h; simp [← h, hasType]
  | Bool => simp [decodeInt] at h; simp [← h, hasType]
  | ShadingModel =>
    rcases ht : ShadingModel.tryFrom out with _ | s <;> simp [decodeInt, ht] at h
    simp [← h, hasType]
  | MaterialBlendOp =>
    rcases ht : MaterialBlendOp.tryFrom out with _ | s <;> simp [decodeInt, ht] at h
    simp [← h, hasType]
  | BlendOp =>
    rcases ht : BlendOp.tryFrom out with _ | s <;> simp [decodeInt, ht] at h
    simp [← h, hasType]
  | Mapping =>
    rcases ht : Mapping.tryFrom out with _ | s <;> simp [decodeInt, ht] at h
    simp [← h, hasType]
  | WrappingMode =>
    rcases ht : WrappingMode.tryFrom out with _ | s <;> simp [decodeInt, ht] at h
    simp [← h, hasType]
  | TextureFlags =>
    rcases ht : TextureFlags.from_bits out with _ | s <;> simp [decodeInt, ht] at h
    simp [← h, hasType]
  | Color3D => simp [decodeInt] at h
  | String => simp [decodeInt] at h
  | Float => simp [decodeInt] at h
  | Vector3D => simp [decodeInt] at h

theorem okTyped_bind_decodeInt (o : Option Nat) (vt : ValueType) :
    okTyped (Except.ok (o.bind (decodeInt vt))) vt = true := by
  rcases o with _ | out
  · rfl
  · rcases hd : decodeInt vt out with _ | x
    · simp [okTyped, Option.some_bind, hd]
    · simp [okTyped, Option.some_bind, hd, decodeInt_hasType vt out x hd]

theorem okTyped_map_color (o : Option Color3D) :
    okTyped (Except.ok (o.map MaterialValue.Color3D)) ValueType.Color3D = true := by
  rcases o <;> rfl

theorem okTyped_map_string (o : Option String) :
    okTyped (Except.ok (o.map MaterialValue.String)) ValueType.String = true := by
  rcases o <;> rfl

theorem okTyped_map_float (o : Option Rat) :
    okTyped (Except.ok (o.map MaterialValue.Float)) ValueType.Float = true := by
  rcases o <;> rfl

/-- C3 counterexample: `get_value` on the per-texture-slot map-axis key
(declared type 3-vector) always reaches the `todo!` arm and panics, for
any material — here the empty one — contradicting the claim that no key
ever panics. -/
theorem get_value_mapaxis_key_panics :
    Material.get_value emptyMaterial
        (MaterialKey.TextureMapAxis MaterialComponentType.Diffuse 0)
      = Except.error vectorTodoMsg := rfl

/-- C3 (amended): for every key of the catalog other than the 3-vector
(map-axis) keys, `get_value` never panics and returns either a value of
the key's declared semantic type or absent; in particular an
enumeration payload matching no known variant (e.g. an unrecognized
shading-model integer) yields absent.  The map-axis key itself panics
(an unimplemented `todo!`). -/
theorem get_value_typed_or_absent_except_mapaxis :
    (∀ (m : Material) (key : MaterialKey),
        key.type_ ≠ ValueType.Vector3D →
          okTyped (m.get_value key) key.type_ = true)
      ∧ (∀ (m : Material) (out : Nat),
          m.intProps "$mat.shadingm" 0 0 = some out →
          ShadingModel.tryFrom out = none →
          m.get_value MaterialKey.ShadingModel = Except.ok none) := by
  constructor
  · intro m key h
    cases key with
    | Name => exact okTyped_map_string _
    | Color c =>
      cases c
      case Diffuse => exact okTyped_map_color _
      case Specular => exact okTyped_map_color _
      case Ambient => exact okTyped_map_color _
      case Emissive => exact okTyped_map_color _
      case Opacity => exact okTyped_map_color _
      case Reflection => exact okTyped_map_color _
      case Displacement => rfl
      case Lightmap => rfl
      case Unknown => rfl
    | Wireframe => exact okTyped_bind_decodeInt _ _
    | TwoSided => exact okTyped_bind_decodeInt _ _
    | ShadingModel => exact okTyped_bind_decodeInt _ _
    | BlendFunc => exact okTyped_bind_decodeInt _ _
    | Opacity => exact okTyped_map_float _
    | Shininess => exact okTyped_map_float _
    | ShininessStrength => exact okTyped_map_float _
    | RefractionIndex => exact okTyped_map_float _
    | Texture c i => exact okTyped_map_string _
    | TextureBlend c i => exact okTyped_map_float _
    | TextureOp c i => exact okTyped_bind_decodeInt _ _
    | Mapping c i => exact okTyped_bind_decodeInt _ _
    | UVWSource c i => exact okTyped_bind_decodeInt _ _
    | MappingModeU c i => exact okTyped_bind_decodeInt _ _
    | MappingModeV c i => exact okTyped_bind_decodeInt _ _
    | TextureMapAxis c i => exact absurd rfl h
    | Flags c i => exact okTyped_bind_decodeInt _ _
  · intro m out hlook htf
    show Except.ok ((m.intProps "$mat.shadingm" 0 0).bind (decodeInt ValueType.ShadingModel))
      = Except.ok none
    rw [hlook]
    simp [decodeInt, htf]

/-- A material whose only property is the unrecognized shading-model
integer 999. -/
def badShadingMaterial : Material :=
  { emptyMaterial with
      intProps := fun name _ _ => if name = "$mat.shadingm" then some 999 else none }

theorem get_value_typed_or_absent_except_mapaxis_witness :
    okTyped (Material.get_value emptyMaterial MaterialKey.Name)
        (MaterialKey.type_ MaterialKey.Name) = true
      ∧ Material.get_value badShadingMaterial MaterialKey.ShadingModel
          = Except.ok none :=
  ⟨get_value_typed_or_absent_except_mapaxis.1 emptyMaterial MaterialKey.Name
      (by decide),
   get_value_typed_or_absent_except_mapaxis.2 badShadingMaterial 999 rfl rfl⟩

/-- C6: `component(type)` yields absent when there are zero textures of
the type and no explicit color property; yields the explicit color when
there are zero textures but a color property; and yields the zero default
color (not absent) when there is at least one texture and no explicit
color property. -/
theorem component_base_color_fallback :
    ∀ (m : Material) (t : MaterialComponentType),
      (m.textureCount t = 0 →
        m.get_value (MaterialKey.Color t) = Except.ok none →
        m.component t = Except.ok none)
      ∧ (∀ c, m.textureCount t = 0 →
          m.get_value (MaterialKey.Color t)
              = Except.ok (some (MaterialValue.Color3D c)) →
          m.component t = Except.ok (some { color := c, numTextures := 0 }))
      ∧ (0 < m.textureCount t →
          m.get_value (MaterialKey.Color t) = Except.ok none →
          m.component t
            = Except.ok (some { color := Color3D.default
                                numTextures := m.textureCount t })) := by
  intro m t
  refine ⟨?_, ?_, ?_⟩
  · intro hcnt hval
    rw [Material.component, hval]
    simp [hcnt]
  · intro c hcnt hval
    rw [Material.component, hval]
    simp [hcnt, MaterialValue.toColor3D]
  · intro hcnt hval
    rw [Material.component, hval]
    have : m.textureCount t ≠ 0 := by omega
    simp [this]

/-- A material with one diffuse texture and an empty property bag. -/
def oneDiffuseTextureMaterial : Material :=
  { emptyMaterial with
      textureCount := fun t => if t = MaterialComponentType.Diffuse then 1 else 0 }

/-- A material whose only property is an explicit diffuse color. -/
def redDiffuseMaterial : Material :=
  { emptyMaterial with
      colorProps := fun name _ _ =>
        if name = "$clr.diffuse" then some { r := 1, g := 0, b := 0 } else none }

theorem component_base_color_fallback_witness :
    Material.component emptyMaterial MaterialComponentType.Reflection = Except.ok none
      ∧ Material.component redDiffuseMaterial MaterialComponentType.Diffuse
          = Except.ok (some { color := { r := 1, g := 0, b := 0 }, numTextures := 0 })
      ∧ Material.component oneDiffuseTextureMaterial MaterialComponentType.Diffuse
          = Except.ok (some { color := Color3D.default
                              numTextures := oneDiffuseTextureMaterial.textureCount
                                MaterialComponentType.Diffuse }) :=
  ⟨(component_base_color_fallback emptyMaterial MaterialComponentType.Reflection).1
      rfl rfl,
   (component_base_color_fallback redDiffuseMaterial MaterialComponentType.Diffuse).2.1
      { r := 1, g := 0, b := 0 } rfl rfl,
   (component_base_color_fallback oneDiffuseTextureMaterial
        MaterialComponentType.Diffuse).2.2 (by decide) rfl⟩

/-- C7: for every texture slot the component builder produces, an
unrecognized (or absent) foreign blend op yields `blend_op = Replace`,
and whenever `blend_op = Replace` the slot's strength is exactly `1.0`
rather than the foreign blend factor. -/
theorem texture_slot_replace_defaults_strength_one :
    ∀ (m : Material) (t : MaterialComponentType) (i : Nat) (d : TextureDefinition),
      m.textureSlot t i = Except.ok d →
        ((BlendOp.tryFrom (m.rawTexture t i).op = none →
            d.blend_op = BlendOp.Replace)
          ∧ (d.blend_op = BlendOp.Replace → d.strength = 1)) := by
  intro m t i d h
  rw [Material.textureSlot] at h
  split at h
  · exact absurd h (by simp)
  case _ axis =>
    split at h
    · exact absurd h (by simp)
    case _ vu =>
      split at h
      · exact absurd h (by simp)
      case _ vv =>
        rw [Except.ok.injEq] at h
        subst h
        constructor
        · intro hnone
          simp [hnone]
        · intro hrep
          have hcond : (BlendOp.tryFrom (m.rawTexture t i).op).getD BlendOp.Replace
              = BlendOp.Replace := hrep
          simp [hcond]

/-- A material whose diffuse slot 0 reports the foreign "no blend op"
value (an integer outside `aiTextureOp`), UV mapping and a stray blend
factor. -/
def replaceSlotMaterial : Material :=
  { emptyMaterial with
      rawTexture := fun _ _ =>
        { path := "tex.png", mapping := 0, uvindex := 0, blend := 5, op := 99, flags := 0 } }

theorem texture_slot_replace_defaults_strength_one_witness :
    (BlendOp.tryFrom (replaceSlotMaterial.rawTexture MaterialComponentType.Diffuse 0).op
        = none →
      ({ path := "tex.png", strength := 1, blend_op := BlendOp.Replace
         mapping := some Mapping.UV, axis := none, channel := 0
         wrap_u := none, wrap_v := none,
         flags := 0 } : TextureDefinition).blend_op = BlendOp.Replace)
      ∧ (({ path := "tex.png", strength := 1, blend_op := BlendOp.Replace
            mapping := some Mapping.UV, axis := none, channel := 0
            wrap_u := none, wrap_v := none,
            flags := 0 } : TextureDefinition).blend_op = BlendOp.Replace →
          ({ path := "tex.png", strength := 1, blend_op := BlendOp.Replace
             mapping := some Mapping.UV, axis := none, channel := 0
             wrap_u := none, wrap_v := none,
             flags := 0 } : TextureDefinition).strength = 1) :=
  texture_slot_replace_defaults_strength_one replaceSlotMaterial
    MaterialComponentType.Diffuse 0
    { path := "tex.png", strength := 1, blend_op := BlendOp.Replace
      mapping := some Mapping.UV, axis := none, channel := 0
      wrap_u := none, wrap_v := none, flags := 0 }
    rfl

/-! ## Custom I/O bridge (`src/io/mod.rs`)

The backend `File::read` calls are modelled as a function from the call
number to the outcome: `none` for `Err(())`, `some n` for `Ok(n)` bytes
read. -/

/-- The stride loop of `FileWrapper::io_read` (io/mod.rs:108-124): up to
`count` iterations, each reading one element of `size` bytes via the
backend, tallying fully read elements and breaking on the first backend
error or short read; `j` is the index of the next backend call. -/
def strideReads (f : Nat → Option Nat) (size : Nat) : Nat → Nat → Nat
  | 0, _ => 0
  | count + 1, j =>
    match f j with
    | none => 0
    | some bytesRead =>
      if bytesRead ≠ size then 0 else 1 + strideReads f size count (j + 1)

/-- `FileWrapper::io_read` (io/mod.rs:77-126): panics (modelled as
`Except.error`) on size or count 0; a single pass-through read for
`size == 1` (with the `u64::MAX` sentinel on a backend error); otherwise
the stride loop.  (The `size > usize::MAX` panic cannot trigger on a
64-bit `usize` and is omitted.) -/
def io_read (f : Nat → Option Nat) (size count : Nat) : Except String Nat :=
  if size = 0 then Except.error "Size 0 is invalid"
  else if count = 0 then Except.error "Count 0 is invalid"
  else if size = 1 then
    Except.ok
      (match f 0 with
       | some n => n
       | none => 2 ^ 64 - 1)
  else
    Except.ok (strideReads f size count 0)

theorem takeWhile_length_le (p : α → Bool) (l : List α) :
    (l.takeWhile p).length ≤ l.length := by
  induction l with
  | nil => simp
  | cons a l ih =>
    rw [List.takeWhile_cons]
    split
    · simpa using ih
    · simp

theorem strideReads_eq_takeWhile (f : Nat → Option Nat) (size : Nat) :
    ∀ (count j : Nat),
      strideReads f size count j
        = (((List.range count).map (fun k => f (j + k))).takeWhile
            (fun r => r == some size)).length := by
  intro count
  induction count with
  | zero => intro j; simp [strideReads]
  | succ n ih =>
    intro j
    have hshift :
        (List.range n).map (fun k => f (j + Nat.succ k))
          = (List.range n).map (fun k => f ((j + 1) + k)) := by
      apply List.map_congr_left
      intro k _
      congr 1
      omega
    rw [List.range_succ_eq_map, List.map_cons, List.map_map]
    have hcomp :
        ((fun k => f (j + k)) ∘ Nat.succ) = fun k => f (j + Nat.succ k) := rfl
    rw [hcomp, hshift, List.takeWhile_cons]
    have hj0 : j + 0 = j := rfl
    rcases hfj : f j with _ | b
    · rw [hj0, hfj]
      simp [strideReads, hfj]
    · by_cases hb : b = size
      · subst hb
        rw [hj0, hfj]
        have hcond : ((some b == some b) : Bool) = true := by simp
        rw [hcond]
        have hstep : strideReads f b (n + 1) j = 1 + strideReads f b n (j + 1) := by
          simp [strideReads, hfj]
        rw [hstep, ih (j + 1)]
        simp [Nat.add_comm]
      · rw [hj0, hfj]
        have hcond : ((some b == some size) : Bool) = false := by simp [hb]
        rw [hcond]
        simp [strideReads, hfj, hb]

/-- C8: for a batched read of `count > 0` elements of size `size > 1`,
`io_read` returns (without error) the number of leading elements whose
backend read returned exactly `size` bytes — it stops tallying at the
first backend error or short read — and that tally never exceeds
`count`. -/
theorem io_read_counts_fully_read_elements :
    ∀ (f : Nat → Option Nat) (size count : Nat), 1 < size → 0 < count →
      io_read f size count
          = Except.ok
              ((((List.range count).map f).takeWhile (fun r => r == some size)).length)
        ∧ (((List.range count).map f).takeWhile (fun r => r == some size)).length
            ≤ count := by
  intro f size count hsize hcount
  have hle :
      (((List.range count).map f).takeWhile (fun r => r == some size)).length
        ≤ count := by
    calc (((List.range count).map f).takeWhile (fun r => r == some size)).length
        ≤ ((List.range count).map f).length := takeWhile_length_le _ _
      _ = count := by simp
  refine ⟨?_, hle⟩
  rw [io_read, if_neg (by omega), if_neg (by omega), if_neg (by omega)]
  rw [strideReads_eq_takeWhile]
  have : (fun k => f (0 + k)) = f := by
    funext k
    rw [Nat.zero_add]
  rw [this]

theorem io_read_counts_fully_read_elements_witness :
    io_read (fun j => if j = 0 then some 4 else if j = 1 then some 2 else none) 4 3
        = Except.ok
            ((((List.range 3).map
                (fun j => if j = 0 then some 4 else if j = 1 then some 2 else none)).takeWhile
              (fun r => r == some 4)).length)
      ∧ (((List.range 3).map
            (fun j => if j = 0 then some 4 else if j = 1 then some 2 else none)).takeWhile
          (fun r => r == some 4)).length ≤ 3 :=
  io_read_counts_fully_read_elements
    (fun j => if j = 0 then some 4 else if j = 1 then some 2 else none) 4 3
    (by decide) (by decide)

/-! ## Log streams (`src/log/mod.rs`)

The foreign `aiAttachLogStream` / `aiDetachLogStream` side effects are
counted. -/

/-- `LogStream` state (log/mod.rs:7-10) together with tallies of the
foreign attach/detach calls performed so far. -/
structure LogStream where
  attached : Bool
  attachCalls : Nat
  detachCalls : Nat
deriving Repr, DecidableEq

/-- The constructors `LogStream::stdout/stderr/file/callback`
(log/mod.rs:13-67) all start with `attached: false`. -/
def LogStream.new : LogStream :=
  { attached := false, attachCalls := 0, detachCalls := 0 }

/-- `LogStream::attach` (log/mod.rs:73-77): calls `aiAttachLogStream`
when `!attached`.  Note the source never sets `attached` to `true`. -/
def LogStream.attach (s : LogStream) : LogStream :=
  if !s.attached then { s with attachCalls := s.attachCalls + 1 } else s

/-- `LogStream::detach` (log/mod.rs:79-85): calls `aiDetachLogStream`
when `attached`.  Note the source never clears the flag. -/
def LogStream.detach (s : LogStream) : LogStream :=
  if s.attached then { s with detachCalls := s.detachCalls + 1 } else s

/-- `Drop for LogStream` (log/mod.rs:92-96): `drop` just calls
`detach`. -/
def LogStream.scopeExit (s : LogStream) : LogStream :=
  s.detach

/-- C9: the code contradicts the claim.  Because neither `attach` nor
`detach` ever updates the `attached` flag, a fresh stream that is
attached twice performs the underlying attachment twice (the claim says
at most once), and a stream that was attached performs no underlying
detach when dropped (`detachCalls` stays `0`; the claim guarantees a
detach on scope exit). -/
theorem log_stream_attach_not_idempotent_and_never_detaches :
    LogStream.new.attach.attach.attachCalls = 2
      ∧ LogStream.new.attach.scopeExit.detachCalls = 0
      ∧ LogStream.new.attach.attached = false := by
  decide

end AssimpRs
